import Mathlib

/-!
Verification of the typegen validator (package `validator` and the AST
shapes it consumes from `parser/ast`).

The Go source keeps the registry state in maps (`map[string]*TypeInfo`,
`map[string]bool`, ...); here maps are association lists in insertion
order, with assignment overwriting the existing key in place.  Strings,
integers and booleans translate directly; `strings.HasSuffix`,
`strings.Split`/`Join` are mirrored by the corresponding operations on
Lean strings.  The repository carries two variants of the type registry
(an older `registry.go` with dependency tracking and cycle detection,
and `resolver.go` without it); `Validate` in `validator.go` calls the
cycle-detecting variant, so that variant is the one embedded here —
`TypeExists` and `FindType` are textually identical in both.
-/

namespace TypeGen

/-- Source position (`parser/ast/node.go`, `Position`). -/
structure Position where
  filename : String
  line : Nat
  column : Nat
deriving Repr, DecidableEq

/-- Type expressions (`parser/ast/types.go`): `PrimitiveType`, `NamedType`,
`ArrayType`, `MapType`, `OptionalType`.  The Go nodes carry a `BaseNode`
position that no validator code path reads for type expressions (the
validator always reports the enclosing field/variant/alias position), so
it is omitted here.  Named `Ty` because `Type` is taken in Lean. -/
inductive Ty where
  | primitive (name : String)
  | named (name : String)
  | array (elementType : Ty)
  | map (keyType valueType : Ty)
  | optional (elementType : Ty)
deriving Repr, DecidableEq

/-- A struct field (`parser/ast/declarations.go`, `FieldNode`). -/
structure FieldNode where
  pos : Position
  name : String
  type : Ty
  optional : Bool
deriving Repr, DecidableEq

/-- An enum variant (`parser/ast/declarations.go`, `EnumVariantNode`);
`payload` is `none` when the Go `Payload` is nil. -/
structure EnumVariantNode where
  pos : Position
  name : String
  payload : Option Ty
deriving Repr, DecidableEq

/-- A struct declaration (`parser/ast/declarations.go`, `StructNode`). -/
structure StructNode where
  pos : Position
  name : String
  fields : List FieldNode
deriving Repr, DecidableEq

/-- An enum declaration (`parser/ast/declarations.go`, `EnumNode`). -/
structure EnumNode where
  pos : Position
  name : String
  variants : List EnumVariantNode
deriving Repr, DecidableEq

/-- A type alias declaration (`parser/ast/declarations.go`, `TypeAliasNode`). -/
structure TypeAliasNode where
  pos : Position
  name : String
  type : Ty
deriving Repr, DecidableEq

/-- A constant value (`parser/ast/declarations.go`, `IntConstant` /
`StringConstant`). -/
inductive ConstantValue where
  | intConstant (pos : Position) (value : Int)
  | stringConstant (pos : Position) (value : String)
deriving Repr, DecidableEq

/-- A constant declaration (`parser/ast/declarations.go`, `ConstantNode`);
`value` is `none` when the Go `Value` interface is nil. -/
structure ConstantNode where
  pos : Position
  name : String
  value : Option ConstantValue
deriving Repr, DecidableEq

/-- A top-level declaration: the closed set of the four Go declaration
nodes implementing `ast.Declaration`. -/
inductive Declaration where
  | structDecl (s : StructNode)
  | enumDecl (e : EnumNode)
  | aliasDecl (a : TypeAliasNode)
  | constDecl (c : ConstantNode)
deriving Repr, DecidableEq

/-- The `Pos()` of a declaration (each node embeds `BaseNode`). -/
def Declaration.pos : Declaration → Position
  | .structDecl s => s.pos
  | .enumDecl e => e.pos
  | .aliasDecl a => a.pos
  | .constDecl c => c.pos

/-- The `Name` field of a declaration. -/
def Declaration.name : Declaration → String
  | .structDecl s => s.name
  | .enumDecl e => e.name
  | .aliasDecl a => a.name
  | .constDecl c => c.name

/-- An import statement (`parser/ast/program.go`, `ImportNode`). -/
structure ImportNode where
  pos : Position
  path : String
deriving Repr, DecidableEq

/-- A parsed file (`parser/ast/program.go`, `ProgramNode`). -/
structure ProgramNode where
  importNodes : List ImportNode
  declarations : List Declaration
deriving Repr, DecidableEq

mutual
/-- A module tree (`parser/ast/module.go`, `Module`): filename-keyed files
and name-keyed submodules, both Go maps modelled as association lists.
`SubModules` is a specialised list so the mutual recursion below stays
structural. -/
inductive Module where
  | mk (files : List (String × ProgramNode)) (subModules : SubModules)
/-- The name-keyed submodule map of a `Module`. -/
inductive SubModules where
  | nil
  | cons (name : String) (m : Module) (rest : SubModules)
end

/-- The `Files` component of a module. -/
def Module.files : Module → List (String × ProgramNode)
  | .mk files _ => files

/-- The `SubModules` component of a module. -/
def Module.subModules : Module → SubModules
  | .mk _ subs => subs

/-- The scan of `goSplit`: cut the character list at every occurrence of
the (non-empty) separator.  Each step consumes at least one character, so
the caller's fuel `s.length + 1` is never exhausted; the fuel exists only
as a termination measure. -/
def splitChars : Nat → List Char → List Char → List Char → List (List Char)
  | 0, _, _, acc => [acc.reverse]
  | Nat.succ fuel, sep, s, acc =>
      match s with
      | [] => [acc.reverse]
      | c :: rest =>
          if sep.isPrefixOf (c :: rest) then
            acc.reverse :: splitChars fuel sep ((c :: rest).drop sep.length) []
          else
            splitChars fuel sep rest (c :: acc)

/-- Go's `strings.Split` for the non-empty separators the validator uses
(" -> ", "::", ".", "_"). -/
def goSplit (s sep : String) : List String :=
  (splitChars (s.data.length + 1) sep.data s.data []).map String.mk

/-- Regex `^[a-z][a-z0-9_]*$` (`validator/naming.go`, `snakeCaseRegex`;
ASCII classes as in the Go pattern). -/
def IsValidSnakeCase (s : String) : Bool :=
  match s.data with
  | [] => false
  | c :: rest => c.isLower && rest.all (fun d => d.isLower || d.isDigit || d == '_')

/-- Regex `^[A-Z][a-zA-Z0-9]*$` (`validator/naming.go`, `pascalCaseRegex`). -/
def IsValidPascalCase (s : String) : Bool :=
  match s.data with
  | [] => false
  | c :: rest => c.isUpper && rest.all (fun d => d.isAlpha || d.isDigit)

/-- Regex `^[A-Z][A-Z0-9_]*$` (`validator/naming.go`, `constantCaseRegex`). -/
def IsValidConstantCase (s : String) : Bool :=
  match s.data with
  | [] => false
  | c :: rest => c.isUpper && rest.all (fun d => d.isUpper || d.isDigit || d == '_')

/-- The `ValidPrimitiveTypes` set (`validator/naming.go`), in source order:
the full list of valid primitive type names. -/
def ValidPrimitiveTypes : List String :=
  ["int8", "int16", "int32", "int64",
   "nat8", "nat16", "nat32", "nat64",
   "float32", "float64",
   "string", "bool",
   "json",
   "datetime", "date", "time"]

/-- `IsValidPrimitiveType` (`validator/naming.go`). -/
def IsValidPrimitiveType (typeName : String) : Bool :=
  ValidPrimitiveTypes.contains typeName

/-- The `ValidMapKeyTypes` set (`validator/naming.go`), in source order. -/
def ValidMapKeyTypes : List String :=
  ["string", "int8", "int16", "int32", "int64", "nat8", "nat16", "nat32", "nat64"]

/-- `IsValidMapKeyType` (`validator/naming.go`). -/
def IsValidMapKeyType (typeName : String) : Bool :=
  ValidMapKeyTypes.contains typeName

/-- The character loop of `SuggestSnakeCase`: underscore before an interior
upper-case letter, everything lower-cased (`unicode.IsUpper`/`ToLower`
taken on the ASCII range the validator's identifiers live in). -/
def snakeChars : Nat → List Char → List Char
  | _, [] => []
  | i, c :: rest =>
    (if decide (i > 0) && c.isUpper then ['_', c.toLower] else [c.toLower])
      ++ snakeChars (i + 1) rest

/-- `SuggestSnakeCase` (`validator/naming.go`). -/
def SuggestSnakeCase (s : String) : String :=
  if IsValidSnakeCase s then s else String.mk (snakeChars 0 s.data)

/-- One underscore-separated part of `SuggestPascalCase`: first rune
upper-cased, the rest lower-cased; the empty part contributes nothing. -/
def pascalPart (part : String) : String :=
  match part.data with
  | [] => ""
  | c :: rest => String.mk (c.toUpper :: rest.map Char.toLower)

/-- `SuggestPascalCase` (`validator/naming.go`). -/
def SuggestPascalCase (s : String) : String :=
  if IsValidPascalCase s then s
  else String.join ((goSplit s "_").map pascalPart)

/-- `SuggestConstantCase` (`validator/naming.go`). -/
def SuggestConstantCase (s : String) : String :=
  if IsValidConstantCase s then s else (SuggestSnakeCase s).toUpper

/-- `IsValidModuleName` (`validator/naming.go`): every dot-separated part
must be snake_case. -/
def IsValidModuleName (name : String) : Bool :=
  if name == "" then false
  else (goSplit name ".").all IsValidSnakeCase

/-- `SuggestModuleName` (`validator/naming.go`). -/
def SuggestModuleName (name : String) : String :=
  if IsValidModuleName name then name
  else String.intercalate "." ((goSplit name ".").map SuggestSnakeCase)

/-- `ValidationErrorType` (`validator/errors.go`) is a string type in Go. -/
abbrev ValidationErrorType := String

/-- Error kind `undefined_type` (`validator/errors.go`). -/
def UndefinedTypeError : ValidationErrorType := "undefined_type"

/-- Error kind `invalid_primitive` (`validator/errors.go`). -/
def InvalidPrimitiveError : ValidationErrorType := "invalid_primitive"

/-- Error kind `invalid_map_key` (`validator/errors.go`). -/
def InvalidMapKeyError : ValidationErrorType := "invalid_map_key"

/-- Error kind `naming_convention` (`validator/errors.go`). -/
def NamingConventionError : ValidationErrorType := "naming_convention"

/-- Error kind `duplicate_type` (`validator/errors.go`). -/
def DuplicateTypeError : ValidationErrorType := "duplicate_type"

/-- Error kind `duplicate_field` (`validator/errors.go`). -/
def DuplicateFieldError : ValidationErrorType := "duplicate_field"

/-- Error kind `duplicate_variant` (`validator/errors.go`). -/
def DuplicateVariantError : ValidationErrorType := "duplicate_variant"

/-- Error kind `duplicate_constant` (`validator/errors.go`). -/
def DuplicateConstantError : ValidationErrorType := "duplicate_constant"

/-- Error kind `invalid_import` (`validator/errors.go`). -/
def InvalidImportError : ValidationErrorType := "invalid_import"

/-- Error kind `invalid_optional` (`validator/errors.go`). -/
def InvalidOptionalError : ValidationErrorType := "invalid_optional"

/-- Error kind `invalid_constant` (`validator/errors.go`). -/
def InvalidConstantError : ValidationErrorType := "invalid_constant"

/-- Modelled from the spec: `validator.go` references a
`CircularDependencyError` kind that `errors.go` never declares (the spec
flags this in §9 as the cycle-policy inconsistency).  Its string value is
missing from the repository; it is modelled after the declared kinds'
naming scheme.  No theorem below depends on the concrete string, only on
it being the kind carried by cycle errors. -/
def CircularDependencyError : ValidationErrorType := "circular_dependency"

/-- `ValidationError` (`validator/errors.go`). -/
structure ValidationError where
  type : ValidationErrorType
  message : String
  file : String
  line : Nat
  column : Nat
  suggestion : String
deriving Repr, DecidableEq

/-- `ValidationResult` (`validator/errors.go`). -/
structure ValidationResult where
  errors : List ValidationError
  valid : Bool
deriving Repr, DecidableEq

/-- `HasErrors` (`validator/errors.go`): `len(r.Errors) > 0`. -/
def ValidationResult.HasErrors (r : ValidationResult) : Bool :=
  decide (r.errors.length > 0)

/-- `ErrorCount` (`validator/errors.go`). -/
def ValidationResult.ErrorCount (r : ValidationResult) : Nat :=
  r.errors.length

/-- `AddError` (`validator/errors.go`): appends the error and marks the
result invalid. -/
def ValidationResult.AddError (r : ValidationResult) (errorType : ValidationErrorType)
    (message file : String) (line column : Nat) (suggestion : String) : ValidationResult :=
  { errors := r.errors ++
      [{ type := errorType, message := message, file := file,
         line := line, column := column, suggestion := suggestion }],
    valid := false }

/-- `NewValidationResult` (`validator/errors.go`): empty error list,
`Valid: true`. -/
def NewValidationResult : ValidationResult :=
  { errors := [], valid := true }

/-- `TypeInfo` (`validator/registry.go`, the dependency-tracking variant
wired into `Validate`). -/
structure TypeInfo where
  name : String
  declType : String
  file : String
  line : Nat
  column : Nat
  dependencies : List String
deriving Repr, DecidableEq

/-- `TypeRegistry` (`validator/registry.go`): the Go
`map[string]*TypeInfo` keyed by qualified name, as an association list in
insertion order.  The Go struct's `currentFile` field is written by the
registry builder but never read, so it is omitted. -/
structure TypeRegistry where
  types : List (String × TypeInfo)
deriving Repr, DecidableEq

/-- `NewTypeRegistry`. -/
def NewTypeRegistry : TypeRegistry := { types := [] }

/-- `qualifyName`: `fmt.Sprintf("%s::%s", file, name)`. -/
def qualifyName (name file : String) : String :=
  file ++ "::" ++ name

/-- Go map read `m[key]`: the first (unique) entry with that key. -/
def alookup {α : Type} (l : List (String × α)) (key : String) : Option α :=
  match l with
  | [] => none
  | (k, v) :: rest => if k == key then some v else alookup rest key

/-- Go map assignment `m[key] = v`: overwrite in place, else append. -/
def aset {α : Type} (l : List (String × α)) (key : String) (v : α) : List (String × α) :=
  match l with
  | [] => [(key, v)]
  | (k, w) :: rest => if k == key then (key, v) :: rest else (k, w) :: aset rest key v

/-- Go map update of an existing entry (no-op when the key is absent). -/
def aupdate {α : Type} (l : List (String × α)) (key : String) (f : α → α) : List (String × α) :=
  match l with
  | [] => []
  | (k, w) :: rest => if k == key then (k, f w) :: rest else (k, w) :: aupdate rest key f

/-- `RegisterType` (`validator/registry.go`): inserts a `TypeInfo` keyed
by `file::name` with an empty dependency list. -/
def TypeRegistry.RegisterType (r : TypeRegistry) (name declType file : String)
    (line column : Nat) : TypeRegistry :=
  { types := aset r.types (qualifyName name file)
      { name := name, declType := declType, file := file,
        line := line, column := column, dependencies := [] } }

/-- `AddDependency` (`validator/registry.go`): appends `toType` to the
dependency list of `file::fromType` when that type is registered. -/
def TypeRegistry.AddDependency (r : TypeRegistry) (fromType toType file : String) : TypeRegistry :=
  { types := aupdate r.types (qualifyName fromType file)
      (fun info => { info with dependencies := info.dependencies ++ [toType] }) }

/-- `strings.HasSuffix`, on the character lists underlying Lean strings. -/
def hasSuffix (s suffixStr : String) : Bool :=
  suffixStr.data.isSuffixOf s.data

/-- `TypeExists` (`validator/registry.go` = `validator/resolver.go`):
primitives first, then the exact `currentFile::name` key, then any
registered key ending in `::name`.  Declared imports are not an input:
resolution never consults them. -/
def TypeRegistry.TypeExists (r : TypeRegistry) (name currentFile : String) : Bool :=
  if IsValidPrimitiveType name then true
  else if (alookup r.types (qualifyName name currentFile)).isSome then true
  else r.types.any (fun kv => hasSuffix kv.1 ("::" ++ name))

/-- The cross-file scan of `FindType`: first registered entry whose key
ends in the given suffix. -/
def findSuffixType (types : List (String × TypeInfo)) (suffixStr : String) : Option TypeInfo :=
  match types with
  | [] => none
  | (k, v) :: rest => if hasSuffix k suffixStr then some v else findSuffixType rest suffixStr

/-- `FindType` (`validator/registry.go` = `validator/resolver.go`): the
exact `currentFile::name` key first, then any registered key ending in
`::name`; no primitive step. -/
def TypeRegistry.FindType (r : TypeRegistry) (name currentFile : String) : Option TypeInfo :=
  match alookup r.types (qualifyName name currentFile) with
  | some info => some info
  | none => findSuffixType r.types ("::" ++ name)

/-- Path accumulation of the tree walks (`validator.go` /
`registry.go`): `fullPath := basePath; if fullPath != "" { fullPath += "/" };
fullPath += name`. -/
def joinPath (basePath name : String) : String :=
  if basePath == "" then name else basePath ++ "/" ++ name

/-- `addTypeDependencies` (`validator/registry.go`): unwraps arrays, maps
and optionals down to named leaf references, adding one dependency per
leaf; primitives contribute nothing. -/
def addTypeDependencies : TypeRegistry → String → Ty → String → TypeRegistry
  | registry, fromType, .named n, file => registry.AddDependency fromType n file
  | registry, fromType, .array elementType, file =>
      addTypeDependencies registry fromType elementType file
  | registry, fromType, .map keyType valueType, file =>
      addTypeDependencies (addTypeDependencies registry fromType keyType file)
        fromType valueType file
  | registry, fromType, .optional elementType, file =>
      addTypeDependencies registry fromType elementType file
  | registry, _, .primitive _, _ => registry

/-- The per-declaration registration step of `processModuleForRegistry`
(`validator/registry.go`): register the declaration, then record its
dependency edges (struct fields, enum payloads, alias target). -/
def registerDecl (registry : TypeRegistry) (fullPath : String) : Declaration → TypeRegistry
  | .structDecl d =>
      let r := registry.RegisterType d.name "struct" fullPath d.pos.line d.pos.column
      d.fields.foldl (fun acc field => addTypeDependencies acc d.name field.type fullPath) r
  | .enumDecl d =>
      let r := registry.RegisterType d.name "enum" fullPath d.pos.line d.pos.column
      d.variants.foldl (fun acc variant =>
        match variant.payload with
        | some payload => addTypeDependencies acc d.name payload fullPath
        | none => acc) r
  | .aliasDecl d =>
      let r := registry.RegisterType d.name "alias" fullPath d.pos.line d.pos.column
      addTypeDependencies r d.name d.type fullPath
  | .constDecl d =>
      registry.RegisterType d.name "constant" fullPath d.pos.line d.pos.column

mutual
/-- `processModuleForRegistry` (`validator/registry.go`): files of this
module first, then the submodules recursively, threading the registry. -/
def processModuleForRegistry : Module → String → TypeRegistry → TypeRegistry
  | .mk files subs, basePath, registry =>
      let r := files.foldl (fun acc fp =>
        fp.2.declarations.foldl (fun a d => registerDecl a (joinPath basePath fp.1) d) acc) registry
      processSubModulesForRegistry subs basePath r
/-- The submodule loop of `processModuleForRegistry`. -/
def processSubModulesForRegistry : SubModules → String → TypeRegistry → TypeRegistry
  | .nil, _, registry => registry
  | .cons subModuleName m rest, basePath, registry =>
      processSubModulesForRegistry rest basePath
        (processModuleForRegistry m (joinPath basePath subModuleName) registry)
end

/-- `buildTypeRegistry` (`validator/registry.go`). -/
def buildTypeRegistry (module : Module) : TypeRegistry :=
  processModuleForRegistry module "" NewTypeRegistry

/-- The two boolean maps `visited` and `recStack` of the cycle DFS
(`validator/registry.go`), shared and mutated down the recursion in Go,
threaded explicitly here; a key set to true is in the list, setting it
false removes it. -/
structure CycleState where
  visited : List String
  recStack : List String
deriving Repr, DecidableEq

/-- `detectCycle` (`validator/registry.go`): depth-first search with a
recursion stack; a back-edge to a node on the stack yields the cycle path
from its first occurrence.  The Go function recurses only into nodes not
yet visited, each call marking one more node visited, so its depth is
bounded by the number of distinct node names; the `fuel` argument is an
upper bound on that depth supplied by the caller (`registryFuel`), never
exhausted on the Go-reachable inputs, and exists only because Lean
requires a termination measure. -/
def detectCycle (r : TypeRegistry) : Nat → String → CycleState → List String →
    Option (List String) × CycleState
  | 0, _, st, _ => (none, st)
  | Nat.succ fuel, typeName, st0, path0 =>
      let st1 : CycleState := ⟨typeName :: st0.visited, typeName :: st0.recStack⟩
      let path := path0 ++ [typeName]
      let stepDep := fun (file : String) (acc : Option (List String) × CycleState) (dep : String) =>
        match acc with
        | (some cycle, st) => (some cycle, st)
        | (none, st) =>
            let qualifiedDep := qualifyName dep file
            if !(st.visited.contains qualifiedDep) then
              detectCycle r fuel qualifiedDep st path
            else if st.recStack.contains qualifiedDep then
              match path.findIdx? (fun p => p == qualifiedDep) with
              | some cycleStart => (some (path.drop cycleStart ++ [qualifiedDep]), st)
              | none => (none, st)
            else (none, st)
      let walked :=
        match alookup r.types typeName with
        | some typeInfo => typeInfo.dependencies.foldl (stepDep typeInfo.file) (none, st1)
        | none => (none, st1)
      match walked with
      | (some cycle, st) => (some cycle, st)
      | (none, st) => (none, ⟨st.visited, st.recStack.filter (fun x => x != typeName)⟩)

/-- Enough fuel for `detectCycle` on this registry: every node the DFS can
enter is either a registered key or the qualified name of one of the
recorded dependencies, and each entered node is distinct. -/
def registryFuel (r : TypeRegistry) : Nat :=
  r.types.length + (r.types.map (fun kv => kv.2.dependencies.length)).sum + 1

/-- `ValidateCircularDependencies` (`validator/registry.go`): run the DFS
from every not-yet-visited registered type, collecting each found cycle as
its path joined with " -> "; `visited`/`recStack` persist across the
iterations as the shared Go maps do. -/
def TypeRegistry.ValidateCircularDependencies (r : TypeRegistry) : List String :=
  (r.types.foldl (fun (acc : List String × CycleState) kv =>
    let (cycles, st) := acc
    if !(st.visited.contains kv.1) then
      match detectCycle r (registryFuel r) kv.1 st [] with
      | (some cycle, st2) => (cycles ++ [String.intercalate " -> " cycle], st2)
      | (none, st2) => (cycles, st2)
    else (cycles, st)) ([], ⟨[], []⟩)).1

/-- `validatePrimitiveType` (`validator/validator.go`): any name outside
`ValidPrimitiveTypes` is an `InvalidPrimitiveError`.  Validator functions
are embedded as the ordered list of errors their `AddError` calls emit;
the top-level `Validate` below replays them through `AddError`. -/
def validatePrimitiveType (name file : String) (line column : Nat) : List ValidationError :=
  if !IsValidPrimitiveType name then
    [{ type := InvalidPrimitiveError,
       message := "'" ++ name ++ "' is not a valid primitive type",
       file := file, line := line, column := column,
       suggestion := "use one of: int8, int16, int32, int64, nat8, nat16, nat32, nat64, float32, float64, string, bool, json, datetime, date, time" }]
  else []

/-- `validateNamedType` (`validator/validator.go`): a reference that the
registry cannot resolve is an `UndefinedTypeError`. -/
def validateNamedType (registry : TypeRegistry) (name file : String)
    (line column : Nat) : List ValidationError :=
  if !(registry.TypeExists name file) then
    [{ type := UndefinedTypeError,
       message := "undefined type '" ++ name ++ "'",
       file := file, line := line, column := column,
       suggestion := "define the type or check the spelling" }]
  else []

/-- The key check of `validateMapType` (`validator/validator.go`): a
primitive key outside `ValidMapKeyTypes`, or any non-primitive key, is an
`InvalidMapKeyError`. -/
def mapKeyCheck : Ty → String → Nat → Nat → List ValidationError
  | .primitive n, file, line, column =>
      if !IsValidMapKeyType n then
        [{ type := InvalidMapKeyError,
           message := "map key type '" ++ n ++ "' is not valid",
           file := file, line := line, column := column,
           suggestion := "use string or integer types for map keys" }]
      else []
  | _, file, line, column =>
      [{ type := InvalidMapKeyError,
         message := "map key must be a primitive type",
         file := file, line := line, column := column,
         suggestion := "use string or integer types for map keys" }]

/-- The double-wrap check of `validateOptionalType`
(`validator/validator.go`), applied to the element of an optional. -/
def optionalCheck : Ty → String → Nat → Nat → List ValidationError
  | .optional _, file, line, column =>
      [{ type := InvalidOptionalError,
         message := "double-wrapped optional types are not allowed",
         file := file, line := line, column := column,
         suggestion := "use single optional marker ?Type" }]
  | _, _, _, _ => []

/-- `validateType` (`validator/validator.go`), with `validateMapType` and
`validateOptionalType` inlined as their checks followed by the recursive
calls the source makes. -/
def validateType (registry : TypeRegistry) : Ty → String → Nat → Nat → List ValidationError
  | .primitive name, file, line, column => validatePrimitiveType name file line column
  | .named name, file, line, column => validateNamedType registry name file line column
  | .array elementType, file, line, column =>
      validateType registry elementType file line column
  | .map keyType valueType, file, line, column =>
      mapKeyCheck keyType file line column
        ++ validateType registry keyType file line column
        ++ validateType registry valueType file line column
  | .optional elementType, file, line, column =>
      optionalCheck elementType file line column
        ++ validateType registry elementType file line column

/-- The duplicate check of `validateField` (`validator/validator.go`):
a field already in `fieldNames` yields one `DuplicateFieldError` at the
current field citing the first occurrence's line; otherwise the field is
recorded. -/
def fieldDupCheck (field : FieldNode) (file : String)
    (fieldNames : List (String × FieldNode)) :
    List ValidationError × List (String × FieldNode) :=
  match alookup fieldNames field.name with
  | some existing =>
      ([{ type := DuplicateFieldError,
          message := "duplicate field '" ++ field.name ++ "' (first declared at line "
            ++ toString existing.pos.line ++ ")",
          file := file, line := field.pos.line, column := field.pos.column,
          suggestion := "rename one of the fields" }], fieldNames)
  | none => ([], fieldNames ++ [(field.name, field)])

/-- `validateField` (`validator/validator.go`): snake_case check,
duplicate check against the fields seen so far (recording the first
occurrence), then the field type; returns the errors and the updated
`fieldNames` map. -/
def validateField (registry : TypeRegistry) (field : FieldNode) (file : String)
    (fieldNames : List (String × FieldNode)) :
    List ValidationError × List (String × FieldNode) :=
  let nameErrs :=
    if !IsValidSnakeCase field.name then
      [{ type := NamingConventionError,
         message := "field name '" ++ field.name ++ "' should follow snake_case convention",
         file := file, line := field.pos.line, column := field.pos.column,
         suggestion := "use '" ++ SuggestSnakeCase field.name ++ "'" }]
    else []
  let checked := fieldDupCheck field file fieldNames
  (nameErrs ++ checked.1
      ++ validateType registry field.type file field.pos.line field.pos.column,
    checked.2)

/-- The field loop of `validateStruct`, threading `fieldNames`. -/
def validateFields (registry : TypeRegistry) : List FieldNode → String →
    List (String × FieldNode) → List ValidationError
  | [], _, _ => []
  | field :: rest, file, fieldNames =>
      let step := validateField registry field file fieldNames
      step.1 ++ validateFields registry rest file step.2

/-- `validateStruct` (`validator/validator.go`): PascalCase name check,
then the fields against a fresh `fieldNames` map. -/
def validateStruct (registry : TypeRegistry) (s : StructNode) (file : String) :
    List ValidationError :=
  (if !IsValidPascalCase s.name then
    [{ type := NamingConventionError,
       message := "struct name '" ++ s.name ++ "' should follow PascalCase convention",
       file := file, line := s.pos.line, column := s.pos.column,
       suggestion := "use '" ++ SuggestPascalCase s.name ++ "'" }]
   else [])
    ++ validateFields registry s.fields file []

/-- The duplicate check of `validateEnumVariant`
(`validator/validator.go`). -/
def variantDupCheck (variant : EnumVariantNode) (file : String)
    (variantNames : List (String × EnumVariantNode)) :
    List ValidationError × List (String × EnumVariantNode) :=
  match alookup variantNames variant.name with
  | some existing =>
      ([{ type := DuplicateVariantError,
          message := "duplicate variant '" ++ variant.name ++ "' (first declared at line "
            ++ toString existing.pos.line ++ ")",
          file := file, line := variant.pos.line, column := variant.pos.column,
          suggestion := "rename one of the variants" }], variantNames)
  | none => ([], variantNames ++ [(variant.name, variant)])

/-- `validateEnumVariant` (`validator/validator.go`): snake_case check,
duplicate check recording the first occurrence, then the payload type
when present. -/
def validateEnumVariant (registry : TypeRegistry) (variant : EnumVariantNode) (file : String)
    (variantNames : List (String × EnumVariantNode)) :
    List ValidationError × List (String × EnumVariantNode) :=
  let nameErrs :=
    if !IsValidSnakeCase variant.name then
      [{ type := NamingConventionError,
         message := "enum variant '" ++ variant.name ++ "' should follow snake_case convention",
         file := file, line := variant.pos.line, column := variant.pos.column,
         suggestion := "use '" ++ SuggestSnakeCase variant.name ++ "'" }]
    else []
  let checked := variantDupCheck variant file variantNames
  let payloadErrs :=
    match variant.payload with
    | some payload => validateType registry payload file variant.pos.line variant.pos.column
    | none => []
  (nameErrs ++ checked.1 ++ payloadErrs, checked.2)

/-- The variant loop of `validateEnum`, threading `variantNames`. -/
def validateVariants (registry : TypeRegistry) : List EnumVariantNode → String →
    List (String × EnumVariantNode) → List ValidationError
  | [], _, _ => []
  | variant :: rest, file, variantNames =>
      let step := validateEnumVariant registry variant file variantNames
      step.1 ++ validateVariants registry rest file step.2

/-- `validateEnum` (`validator/validator.go`). -/
def validateEnum (registry : TypeRegistry) (e : EnumNode) (file : String) :
    List ValidationError :=
  (if !IsValidPascalCase e.name then
    [{ type := NamingConventionError,
       message := "enum name '" ++ e.name ++ "' should follow PascalCase convention",
       file := file, line := e.pos.line, column := e.pos.column,
       suggestion := "use '" ++ SuggestPascalCase e.name ++ "'" }]
   else [])
    ++ validateVariants registry e.variants file []

/-- `validateTypeAlias` (`validator/validator.go`); `alias` is reserved
in Lean, so the parameter is `al`. -/
def validateTypeAlias (registry : TypeRegistry) (al : TypeAliasNode) (file : String) :
    List ValidationError :=
  (if !IsValidPascalCase al.name then
    [{ type := NamingConventionError,
       message := "type alias '" ++ al.name ++ "' should follow PascalCase convention",
       file := file, line := al.pos.line, column := al.pos.column,
       suggestion := "use '" ++ SuggestPascalCase al.name ++ "'" }]
   else [])
    ++ validateType registry al.type file al.pos.line al.pos.column

/-- `validateConstant` (`validator/validator.go`): CONSTANT_CASE check and
the presence of a value. -/
def validateConstant (constant : ConstantNode) (file : String) : List ValidationError :=
  (if !IsValidConstantCase constant.name then
    [{ type := NamingConventionError,
       message := "constant name '" ++ constant.name ++ "' should follow CONSTANT_CASE convention",
       file := file, line := constant.pos.line, column := constant.pos.column,
       suggestion := "use '" ++ SuggestConstantCase constant.name ++ "'" }]
   else [])
    ++ (match constant.value with
        | none =>
            [{ type := InvalidConstantError,
               message := "constant '" ++ constant.name ++ "' must have a value",
               file := file, line := constant.pos.line, column := constant.pos.column,
               suggestion := "provide a value for the constant" }]
        | some _ => [])

/-- `validateImport` (`validator/validator.go`). -/
def validateImport (imp : ImportNode) (filename : String) : List ValidationError :=
  if !IsValidModuleName imp.path then
    [{ type := InvalidImportError,
       message := "import path '" ++ imp.path ++ "' should follow snake_case convention for module names",
       file := filename, line := imp.pos.line, column := imp.pos.column,
       suggestion := "use '" ++ SuggestModuleName imp.path ++ "'" }]
  else []

/-- The `declName`/`declType` pair the switch of `validateDeclaration`
extracts. -/
def declKindName : Declaration → String × String
  | .structDecl d => (d.name, "struct")
  | .enumDecl d => (d.name, "enum")
  | .aliasDecl d => (d.name, "type alias")
  | .constDecl d => (d.name, "constant")

/-- The per-kind body validation of the switch in `validateDeclaration`. -/
def validateDeclBody (registry : TypeRegistry) (decl : Declaration) (file : String) :
    List ValidationError :=
  match decl with
  | .structDecl d => validateStruct registry d file
  | .enumDecl d => validateEnum registry d file
  | .aliasDecl d => validateTypeAlias registry d file
  | .constDecl d => validateConstant d file

/-- The duplicate check of `validateDeclaration`
(`validator/validator.go`): a declaration whose name is already in
`declNames` yields one `DuplicateTypeError` at the current declaration
citing the first occurrence's line; otherwise the declaration is
recorded. -/
def declDupCheck (decl : Declaration) (file : String)
    (declNames : List (String × Declaration)) :
    List ValidationError × List (String × Declaration) :=
  let kindName := declKindName decl
  match alookup declNames kindName.1 with
  | some existing =>
      let dupErr : ValidationError :=
        { type := DuplicateTypeError,
          message := "duplicate " ++ kindName.2 ++ " '" ++ kindName.1
            ++ "' (first declared at line " ++ toString existing.pos.line ++ ")",
          file := file, line := decl.pos.line, column := decl.pos.column,
          suggestion := "rename one of the declarations" }
      ([dupErr], declNames)
  | none => ([], declNames ++ [(kindName.1, decl)])

/-- `validateDeclaration` (`validator/validator.go`): the body first (the
switch), then the duplicate check against `declNames`, reported at the
current declaration citing the first occurrence's line. -/
def validateDeclaration (registry : TypeRegistry) (decl : Declaration) (file : String)
    (declNames : List (String × Declaration)) :
    List ValidationError × List (String × Declaration) :=
  let checked := declDupCheck decl file declNames
  (validateDeclBody registry decl file ++ checked.1, checked.2)

/-- The declaration loop of `validateProgram`, threading `declNames`. -/
def validateDecls (registry : TypeRegistry) : List Declaration → String →
    List (String × Declaration) → List ValidationError
  | [], _, _ => []
  | decl :: rest, file, declNames =>
      let step := validateDeclaration registry decl file declNames
      step.1 ++ validateDecls registry rest file step.2

/-- `validateProgram` (`validator/validator.go`): imports, then the
declarations against a fresh per-file `declNames` map. -/
def validateProgram (registry : TypeRegistry) (program : ProgramNode) (filename : String) :
    List ValidationError :=
  (program.importNodes.map (fun imp => validateImport imp filename)).flatten
    ++ validateDecls registry program.declarations filename []

mutual
/-- `validateModule` (`validator/validator.go`): the files of this module,
then each submodule (snake_case name check, then recursion). -/
def validateModule (registry : TypeRegistry) : Module → String → List ValidationError
  | .mk files subs, basePath =>
      (files.map (fun fp => validateProgram registry fp.2 (joinPath basePath fp.1))).flatten
        ++ validateSubModules registry subs basePath
/-- The submodule loop of `validateModule`. -/
def validateSubModules (registry : TypeRegistry) : SubModules → String → List ValidationError
  | .nil, _ => []
  | .cons subModuleName m rest, basePath =>
      (if !IsValidSnakeCase subModuleName then
        [{ type := NamingConventionError,
           message := "module name '" ++ subModuleName ++ "' should follow snake_case convention",
           file := basePath, line := 0, column := 0,
           suggestion := "use '" ++ SuggestSnakeCase subModuleName ++ "'" }]
       else [])
        ++ validateModule registry m (joinPath basePath subModuleName)
        ++ validateSubModules registry rest basePath
end

/-- The per-cycle reporting step of `validateCircularDependencies`
(`validator/validator.go`): split the cycle string on " -> ", take the
first qualified name (the `len(types) > 0` guard is the non-empty match),
split on "::", and when it has exactly two parts (`len(parts) == 2`,
matched as the two-element list whose first part is the file) report a
`CircularDependencyError` at position 0:0 of that file. -/
def cycleError (cycle : String) : List ValidationError :=
  match goSplit cycle " -> " with
  | [] => []
  | firstType :: _ =>
      match goSplit firstType "::" with
      | [fileName, _] =>
          [{ type := CircularDependencyError,
             message := "circular dependency detected: " ++ cycle,
             file := fileName, line := 0, column := 0,
             suggestion := "restructure types to eliminate circular references" }]
      | _ => []

/-- `validateCircularDependencies` (`validator/validator.go`). -/
def validateCircularDependencies (registry : TypeRegistry) : List ValidationError :=
  (registry.ValidateCircularDependencies.map cycleError).flatten

/-- The `Validator` struct (`validator/validator.go`). -/
structure Validator where
  registry : TypeRegistry
  result : ValidationResult
deriving Repr, DecidableEq

/-- `NewValidator` (`validator/validator.go`); Go leaves `registry` nil
until `Validate` assigns it, modelled as the empty registry. -/
def NewValidator : Validator :=
  { registry := NewTypeRegistry, result := NewValidationResult }

/-- Every error the `Validate` pass emits, in `AddError` call order: the
module walk, then the circular-dependency check. -/
def validateErrors (registry : TypeRegistry) (module : Module) : List ValidationError :=
  validateModule registry module "" ++ validateCircularDependencies registry

/-- Replays a list of emitted errors through `AddError`, as the validator
methods do on the shared `result`. -/
def applyErrors (r : ValidationResult) (errs : List ValidationError) : ValidationResult :=
  errs.foldl (fun acc e => acc.AddError e.type e.message e.file e.line e.column e.suggestion) r

/-- The `Validate` method (`validator/validator.go`): assigns a fresh
`NewValidationResult` and a registry rebuilt from the module to the
receiver's fields, runs the pass, and returns the result (here paired
with the updated receiver). -/
def Validator.Validate (v : Validator) (module : Module) : Validator × ValidationResult :=
  let registry := buildTypeRegistry module
  let result := applyErrors NewValidationResult (validateErrors registry module)
  ({ registry := registry, result := result }, result)

/-- Validation of a module tree from a fresh validator, as the test suite
invokes it: `NewValidator().Validate(module)`. -/
def Validate (module : Module) : ValidationResult :=
  (NewValidator.Validate module).2

/-- A one-file module with a self-referential struct, the shape of
`TestValidator_SelfReference_Allowed` in `validator/validator_test.go`
(there with a `[]TreeNode` and a `?TreeNode` field; one `TreeNode`
reference suffices to close the loop). -/
def selfRefModule : Module :=
  .mk [("tree.tg",
    { importNodes := [],
      declarations := [ .structDecl
        { pos := ⟨"tree.tg", 2, 1⟩, name := "TreeNode",
          fields := [ { pos := ⟨"tree.tg", 3, 2⟩, name := "next",
                        type := .named "TreeNode", optional := false } ] } ] })] .nil

/-- Two mutually referential structs declared in one file. -/
def sameFileMutualModule : Module :=
  .mk [("graph.tg",
    { importNodes := [],
      declarations := [
        .structDecl
          { pos := ⟨"graph.tg", 2, 1⟩, name := "NodeA",
            fields := [ { pos := ⟨"graph.tg", 3, 2⟩, name := "b_node",
                          type := .named "NodeB", optional := false } ] },
        .structDecl
          { pos := ⟨"graph.tg", 6, 1⟩, name := "NodeB",
            fields := [ { pos := ⟨"graph.tg", 7, 2⟩, name := "a_node",
                          type := .named "NodeA", optional := false } ] } ] })] .nil

/-- A struct named `User` declared at line 2. -/
def userStructA : Declaration :=
  .structDecl { pos := ⟨"test.tg", 2, 1⟩, name := "User", fields := [] }

/-- A second struct named `User`, declared at line 5. -/
def userStructB : Declaration :=
  .structDecl { pos := ⟨"test.tg", 5, 1⟩, name := "User", fields := [] }

/-- A field named `id` at line 3. -/
def idFieldA : FieldNode :=
  { pos := ⟨"test.tg", 3, 2⟩, name := "id", type := .primitive "int64", optional := false }

/-- A second field named `id`, at line 5. -/
def idFieldB : FieldNode :=
  { pos := ⟨"test.tg", 5, 2⟩, name := "id", type := .primitive "string", optional := false }

/-- An enum variant named `active` at line 9. -/
def activeVariantA : EnumVariantNode :=
  { pos := ⟨"test.tg", 9, 2⟩, name := "active", payload := none }

/-- A second variant named `active`, at line 10, with a payload. -/
def activeVariantB : EnumVariantNode :=
  { pos := ⟨"test.tg", 10, 2⟩, name := "active", payload := some (.primitive "string") }

/-- The error kinds a declaration body (name checks, member duplicate
checks, type checks) can emit; `DuplicateTypeError` and
`CircularDependencyError` are not among them. -/
def declErrorTypes : List ValidationErrorType :=
  [NamingConventionError, DuplicateFieldError, DuplicateVariantError, InvalidConstantError,
   UndefinedTypeError, InvalidPrimitiveError, InvalidMapKeyError, InvalidOptionalError]

lemma mem_ite_singleton {c : Prop} [Decidable c] {x e : ValidationError}
    (he : e ∈ (if c then [x] else [])) : e = x := by
  split at he
  · simpa using he
  · simp at he

lemma applyErrors_errors (l : List ValidationError) (r : ValidationResult) :
    (applyErrors r l).errors = r.errors ++ l := by
  induction l generalizing r with
  | nil => simp [applyErrors]
  | cons e rest ih =>
      simp only [applyErrors, List.foldl_cons] at *
      rw [ih]
      simp [ValidationResult.AddError]

lemma Validate_errors (m : Module) :
    (Validate m).errors = validateErrors (buildTypeRegistry m) m := by
  simp [Validate, Validator.Validate, applyErrors_errors, NewValidationResult]

lemma declKindName_fst (d : Declaration) : (declKindName d).1 = d.name := by
  cases d <;> rfl

lemma mem_validatePrimitiveType_type {name file : String} {line column : Nat}
    {e : ValidationError} (he : e ∈ validatePrimitiveType name file line column) :
    e.type = InvalidPrimitiveError := by
  unfold validatePrimitiveType at he
  rw [mem_ite_singleton he]

lemma mem_validateNamedType_type {registry : TypeRegistry} {name file : String}
    {line column : Nat} {e : ValidationError}
    (he : e ∈ validateNamedType registry name file line column) :
    e.type = UndefinedTypeError := by
  unfold validateNamedType at he
  rw [mem_ite_singleton he]

lemma mem_mapKeyCheck_type {t : Ty} {file : String} {line column : Nat}
    {e : ValidationError} (he : e ∈ mapKeyCheck t file line column) :
    e.type = InvalidMapKeyError := by
  cases t <;> simp only [mapKeyCheck] at he
  case primitive n => rw [mem_ite_singleton he]
  all_goals simp_all

lemma mem_optionalCheck_type {t : Ty} {file : String} {line column : Nat}
    {e : ValidationError} (he : e ∈ optionalCheck t file line column) :
    e.type = InvalidOptionalError := by
  cases t <;> simp only [optionalCheck] at he <;> simp_all

lemma mem_validateType_type {registry : TypeRegistry} {t : Ty} {file : String}
    {line column : Nat} {e : ValidationError}
    (he : e ∈ validateType registry t file line column) :
    e.type = UndefinedTypeError ∨ e.type = InvalidPrimitiveError
      ∨ e.type = InvalidMapKeyError ∨ e.type = InvalidOptionalError := by
  induction t with
  | primitive name => exact Or.inr (Or.inl (mem_validatePrimitiveType_type he))
  | named name => exact Or.inl (mem_validateNamedType_type he)
  | array elementType ih => exact ih he
  | map keyType valueType ihk ihv =>
      simp only [validateType, List.mem_append] at he
      rcases he with (he | he) | he
      · exact Or.inr (Or.inr (Or.inl (mem_mapKeyCheck_type he)))
      · exact ihk he
      · exact ihv he
  | optional elementType ih =>
      simp only [validateType, List.mem_append] at he
      rcases he with he | he
      · exact Or.inr (Or.inr (Or.inr (mem_optionalCheck_type he)))
      · exact ih he

lemma mem_validateType_declErrorTypes {registry : TypeRegistry} {t : Ty} {file : String}
    {line column : Nat} {e : ValidationError}
    (he : e ∈ validateType registry t file line column) : e.type ∈ declErrorTypes := by
  rcases mem_validateType_type he with h | h | h | h <;> rw [h] <;> decide

lemma mem_fieldDupCheck_type {field : FieldNode} {file : String}
    {fieldNames : List (String × FieldNode)} {e : ValidationError}
    (he : e ∈ (fieldDupCheck field file fieldNames).1) : e.type = DuplicateFieldError := by
  cases h : alookup fieldNames field.name with
  | some existing =>
      simp only [fieldDupCheck, h, List.mem_singleton] at he
      rw [he]
  | none => simp [fieldDupCheck, h] at he

lemma mem_validateField_type {registry : TypeRegistry} {field : FieldNode} {file : String}
    {fieldNames : List (String × FieldNode)} {e : ValidationError}
    (he : e ∈ (validateField registry field file fieldNames).1) : e.type ∈ declErrorTypes := by
  unfold validateField at he
  simp only [List.mem_append] at he
  rcases he with (he | he) | he
  · rw [mem_ite_singleton he]
    show NamingConventionError ∈ declErrorTypes
    decide
  · rw [mem_fieldDupCheck_type he]; decide
  · exact mem_validateType_declErrorTypes he

lemma mem_validateFields_type {registry : TypeRegistry} {fields : List FieldNode}
    {file : String} {fieldNames : List (String × FieldNode)} {e : ValidationError}
    (he : e ∈ validateFields registry fields file fieldNames) : e.type ∈ declErrorTypes := by
  induction fields generalizing fieldNames with
  | nil => simp [validateFields] at he
  | cons field rest ih =>
      simp only [validateFields, List.mem_append] at he
      rcases he with he | he
      · exact mem_validateField_type he
      · exact ih he

lemma mem_variantDupCheck_type {variant : EnumVariantNode} {file : String}
    {variantNames : List (String × EnumVariantNode)} {e : ValidationError}
    (he : e ∈ (variantDupCheck variant file variantNames).1) :
    e.type = DuplicateVariantError := by
  cases h : alookup variantNames variant.name with
  | some existing =>
      simp only [variantDupCheck, h, List.mem_singleton] at he
      rw [he]
  | none => simp [variantDupCheck, h] at he

lemma mem_validateEnumVariant_type {registry : TypeRegistry} {variant : EnumVariantNode}
    {file : String} {variantNames : List (String × EnumVariantNode)} {e : ValidationError}
    (he : e ∈ (validateEnumVariant registry variant file variantNames).1) :
    e.type ∈ declErrorTypes := by
  unfold validateEnumVariant at he
  simp only [List.mem_append] at he
  rcases he with (he | he) | he
  · rw [mem_ite_singleton he]
    show NamingConventionError ∈ declErrorTypes
    decide
  · rw [mem_variantDupCheck_type he]; decide
  · revert he
    cases variant.payload with
    | none => intro he; simp at he
    | some payload => intro he; exact mem_validateType_declErrorTypes he

lemma mem_validateVariants_type {registry : TypeRegistry} {variants : List EnumVariantNode}
    {file : String} {variantNames : List (String × EnumVariantNode)} {e : ValidationError}
    (he : e ∈ validateVariants registry variants file variantNames) :
    e.type ∈ declErrorTypes := by
  induction variants generalizing variantNames with
  | nil => simp [validateVariants] at he
  | cons variant rest ih =>
      simp only [validateVariants, List.mem_append] at he
      rcases he with he | he
      · exact mem_validateEnumVariant_type he
      · exact ih he

lemma mem_validateDeclBody_type {registry : TypeRegistry} {decl : Declaration}
    {file : String} {e : ValidationError}
    (he : e ∈ validateDeclBody registry decl file) : e.type ∈ declErrorTypes := by
  cases decl with
  | structDecl d =>
      simp only [validateDeclBody, validateStruct, List.mem_append] at he
      rcases he with he | he
      · rw [mem_ite_singleton he]
        show NamingConventionError ∈ declErrorTypes
        decide
      · exact mem_validateFields_type he
  | enumDecl d =>
      simp only [validateDeclBody, validateEnum, List.mem_append] at he
      rcases he with he | he
      · rw [mem_ite_singleton he]
        show NamingConventionError ∈ declErrorTypes
        decide
      · exact mem_validateVariants_type he
  | aliasDecl d =>
      simp only [validateDeclBody, validateTypeAlias, List.mem_append] at he
      rcases he with he | he
      · rw [mem_ite_singleton he]
        show NamingConventionError ∈ declErrorTypes
        decide
      · exact mem_validateType_declErrorTypes he
  | constDecl d =>
      simp only [validateDeclBody, validateConstant, List.mem_append] at he
      rcases he with he | he
      · rw [mem_ite_singleton he]
        show NamingConventionError ∈ declErrorTypes
        decide
      · revert he
        cases d.value with
        | none =>
            intro he
            simp only [List.mem_singleton] at he
            rw [he]
            show InvalidConstantError ∈ declErrorTypes
            decide
        | some v => intro he; simp at he

lemma mem_validateImport_type {imp : ImportNode} {filename : String} {e : ValidationError}
    (he : e ∈ validateImport imp filename) : e.type = InvalidImportError := by
  unfold validateImport at he
  rw [mem_ite_singleton he]

lemma mem_cycleError_type {cycle : String} {e : ValidationError}
    (he : e ∈ cycleError cycle) : e.type = CircularDependencyError := by
  unfold cycleError at he
  split at he
  · simp at he
  · split at he
    · simp only [List.mem_singleton] at he
      rw [he]
    · simp at he

lemma mem_validateCircularDependencies_type {registry : TypeRegistry} {e : ValidationError}
    (he : e ∈ validateCircularDependencies registry) : e.type = CircularDependencyError := by
  unfold validateCircularDependencies at he
  rw [List.mem_flatten] at he
  rcases he with ⟨l, hl, he⟩
  rw [List.mem_map] at hl
  rcases hl with ⟨cycle, _, rfl⟩
  exact mem_cycleError_type he

lemma filter_type_eq_nil {t : ValidationErrorType} {l : List ValidationError}
    (h : ∀ e ∈ l, e.type ≠ t) : l.filter (fun e => e.type == t) = [] := by
  induction l with
  | nil => rfl
  | cons e rest ih =>
      have h1 : (e.type == t) = false := by
        simpa using h e (List.mem_cons_self e rest)
      simp only [List.filter_cons, h1, if_neg]
      exact ih (fun x hx => h x (List.mem_cons_of_mem e hx))

lemma findSuffixType_isSome_eq_any (types : List (String × TypeInfo)) (s : String) :
    (findSuffixType types s).isSome = types.any (fun kv => hasSuffix kv.1 s) := by
  induction types with
  | nil => rfl
  | cons kv rest ih =>
      by_cases h : hasSuffix kv.1 s = true
      · simp [findSuffixType, h]
      · simp only [Bool.not_eq_true] at h
        simp [findSuffixType, h, ih]

lemma contains_iff_mem {l : List String} {s : String} : l.contains s = true ↔ s ∈ l := by
  simp [List.contains, List.elem_iff]

lemma mem_importErrors_type {imps : List ImportNode} {f : String} {e : ValidationError}
    (he : e ∈ (imps.map (fun imp => validateImport imp f)).flatten) :
    e.type = InvalidImportError := by
  rw [List.mem_flatten] at he
  rcases he with ⟨l, hl, he⟩
  rw [List.mem_map] at hl
  rcases hl with ⟨imp, _, rfl⟩
  exact mem_validateImport_type he

lemma filter_ite_singleton_nil {c : Prop} [Decidable c] {x : ValidationError}
    (s : ValidationErrorType) {t : ValidationErrorType} (hx : x.type = s) (hne : s ≠ t) :
    (if c then [x] else []).filter (fun e => e.type == t) = [] :=
  filter_type_eq_nil (fun e he => (mem_ite_singleton he) ▸ fun h => hne (hx.symm.trans h))

lemma filter_validateType_nil {registry : TypeRegistry} {ty : Ty} {file : String}
    {line column : Nat} {k : ValidationErrorType}
    (h1 : k ≠ UndefinedTypeError) (h2 : k ≠ InvalidPrimitiveError)
    (h3 : k ≠ InvalidMapKeyError) (h4 : k ≠ InvalidOptionalError) :
    (validateType registry ty file line column).filter (fun e => e.type == k) = [] :=
  filter_type_eq_nil (fun e he hek => by
    rcases mem_validateType_type he with h | h | h | h
    · exact h1 (hek.symm.trans h)
    · exact h2 (hek.symm.trans h)
    · exact h3 (hek.symm.trans h)
    · exact h4 (hek.symm.trans h))

lemma filter_type_singleton_self {x : ValidationError} (t : ValidationErrorType)
    (hx : x.type = t) : [x].filter (fun e => e.type == t) = [x] := by
  simp [List.filter, hx]

lemma validateModule_single_file (reg : TypeRegistry) (f : String) (p : ProgramNode) :
    validateModule reg (.mk [(f, p)] .nil) "" = validateProgram reg p f := by
  simp [validateModule, validateSubModules, joinPath]

lemma validateModule_two_files (reg : TypeRegistry) (f1 : String) (p1 : ProgramNode)
    (f2 : String) (p2 : ProgramNode) :
    validateModule reg (.mk [(f1, p1), (f2, p2)] .nil) ""
      = validateProgram reg p1 f1 ++ validateProgram reg p2 f2 := by
  simp [validateModule, validateSubModules, joinPath]

lemma filter_dupType_cycle_nil (reg : TypeRegistry) :
    (validateCircularDependencies reg).filter (fun e => e.type == DuplicateTypeError) = [] :=
  filter_type_eq_nil (fun e he h => by
    have h2 := mem_validateCircularDependencies_type he
    exact (by decide : CircularDependencyError ≠ DuplicateTypeError) (h2.symm.trans h))

lemma filter_dupType_imports_nil (imps : List ImportNode) (f : String) :
    ((imps.map (fun imp => validateImport imp f)).flatten).filter
      (fun e => e.type == DuplicateTypeError) = [] :=
  filter_type_eq_nil (fun e he h => by
    have h2 := mem_importErrors_type he
    exact (by decide : InvalidImportError ≠ DuplicateTypeError) (h2.symm.trans h))

lemma filter_dupType_body_nil (reg : TypeRegistry) (d : Declaration) (f : String) :
    (validateDeclBody reg d f).filter (fun e => e.type == DuplicateTypeError) = [] :=
  filter_type_eq_nil (fun e he h => by
    have h2 := mem_validateDeclBody_type he
    exact (by decide : DuplicateTypeError ∉ declErrorTypes) (h ▸ h2))

lemma validateProgram_pair_dup (reg : TypeRegistry) (imps : List ImportNode)
    (d1 d2 : Declaration) (f : String) (hname : d1.name = d2.name) :
    (validateProgram reg { importNodes := imps, declarations := [d1, d2] } f).filter
        (fun e => e.type == DuplicateTypeError)
      = [{ type := DuplicateTypeError,
           message := "duplicate " ++ (declKindName d2).2 ++ " '" ++ d2.name
             ++ "' (first declared at line " ++ toString d1.pos.line ++ ")",
           file := f, line := d2.pos.line, column := d2.pos.column,
           suggestion := "rename one of the declarations" }] := by
  have hb : (d1.name == d2.name) = true := by simp [hname]
  have hexp : validateProgram reg { importNodes := imps, declarations := [d1, d2] } f
      = (imps.map (fun imp => validateImport imp f)).flatten
        ++ (validateDeclBody reg d1 f
          ++ (validateDeclBody reg d2 f
            ++ [{ type := DuplicateTypeError,
                  message := "duplicate " ++ (declKindName d2).2 ++ " '" ++ d2.name
                    ++ "' (first declared at line " ++ toString d1.pos.line ++ ")",
                  file := f, line := d2.pos.line, column := d2.pos.column,
                  suggestion := "rename one of the declarations" }])) := by
    simp [validateProgram, validateDecls, validateDeclaration, declDupCheck, alookup,
      declKindName_fst, hb]
  rw [hexp]
  simp only [List.filter_append]
  rw [filter_dupType_imports_nil, filter_dupType_body_nil, filter_dupType_body_nil,
    filter_type_singleton_self DuplicateTypeError rfl]
  simp

lemma validateProgram_single_dup (reg : TypeRegistry) (imps : List ImportNode)
    (d : Declaration) (f : String) :
    (validateProgram reg { importNodes := imps, declarations := [d] } f).filter
        (fun e => e.type == DuplicateTypeError) = [] := by
  have hexp : validateProgram reg { importNodes := imps, declarations := [d] } f
      = (imps.map (fun imp => validateImport imp f)).flatten ++ validateDeclBody reg d f := by
    simp [validateProgram, validateDecls, validateDeclaration, declDupCheck, alookup]
  rw [hexp]
  simp only [List.filter_append]
  rw [filter_dupType_imports_nil, filter_dupType_body_nil]
  simp

/-- C1: the claim says `Validate` returns zero errors attributable to a
type-dependency cycle (self-reference and mutual reference are legal, as
`TestValidator_SelfReference_Allowed` and
`TestValidator_CircularDependencies_Allowed` demand).  The code as wired
does the opposite for same-file cycles: this theorem evaluates `Validate`
on a one-file module whose struct `TreeNode` refers to itself, and on a
one-file module with two mutually referential structs, and in both cases
the result carries exactly one error, a `CircularDependencyError` for the
cycle — an error kind `errors.go` never even declares.  The claim (and
the test suite) is right and the wired-in cycle-rejection path is the
defect the spec's §9 flags. -/
theorem selfReference_cycle_error :
    ((Validate selfRefModule).errors
      = [{ type := CircularDependencyError,
           message := "circular dependency detected: tree.tg::TreeNode -> tree.tg::TreeNode",
           file := "tree.tg", line := 0, column := 0,
           suggestion := "restructure types to eliminate circular references" }])
    ∧ (Validate selfRefModule).HasErrors = true
    ∧ ((Validate sameFileMutualModule).errors
      = [{ type := CircularDependencyError,
           message := "circular dependency detected: graph.tg::NodeA -> graph.tg::NodeB -> graph.tg::NodeA",
           file := "graph.tg", line := 0, column := 0,
           suggestion := "restructure types to eliminate circular references" }])
    ∧ (Validate sameFileMutualModule).HasErrors = true := by decide

/-- C2 counterexample: the claim's fixed set of accepted primitive names
has seventeen members with six date/time variants; in the code
`ValidPrimitiveTypes` has exactly sixteen members with three date/time
variants, and `datetimetz` — a date/time primitive the grammar's keyword
table knows — is rejected by validation with an `InvalidPrimitiveError`. -/
theorem primitive_seventeen_refuted :
    ValidPrimitiveTypes.length = 16
    ∧ IsValidPrimitiveType "datetimetz" = false
    ∧ (validatePrimitiveType "datetimetz" "types.tg" 4 2).map (fun e => e.type)
        = [InvalidPrimitiveError] := by decide

/-- C2 (amended): a primitive type expression passes validation with zero
errors exactly when its name is in the sixteen-element set
`ValidPrimitiveTypes` (signed and unsigned integers of four widths, two
floats, string, bool, json, and the three date/time variants datetime,
date, time); every error it emits for any other name is an
`InvalidPrimitiveError`. -/
theorem primitive_accepts_sixteen (name file : String) (line column : Nat) :
    (validatePrimitiveType name file line column = [] ↔ name ∈ ValidPrimitiveTypes)
    ∧ (∀ e ∈ validatePrimitiveType name file line column, e.type = InvalidPrimitiveError)
    ∧ ValidPrimitiveTypes.length = 16 := by
  refine ⟨?_, fun e he => mem_validatePrimitiveType_type he, by decide⟩
  unfold validatePrimitiveType IsValidPrimitiveType
  by_cases h : ValidPrimitiveTypes.contains name = true
  · simp [h, contains_iff_mem.mp h]
  · have hn : name ∉ ValidPrimitiveTypes := fun hm => h (contains_iff_mem.mpr hm)
    simp [h, hn]

/-- C3: `TypeExists(name, currentFile)` returns true exactly when `name`
is a recognized primitive, or the exact key `currentFile::name` is
registered, or some registered key ends in `::name` — resolution over the
whole flat registry; the function takes no import information at all, so
declared imports play no role. -/
theorem typeExists_resolution (r : TypeRegistry) (name currentFile : String) :
    r.TypeExists name currentFile = true
      ↔ IsValidPrimitiveType name = true
        ∨ (alookup r.types (qualifyName name currentFile)).isSome = true
        ∨ ∃ kv ∈ r.types, hasSuffix kv.1 ("::" ++ name) = true := by
  unfold TypeRegistry.TypeExists
  by_cases h1 : IsValidPrimitiveType name = true
  · simp [h1]
  · by_cases h2 : (alookup r.types (qualifyName name currentFile)).isSome = true
    · simp [h1, h2]
    · simp [h1, h2, List.any_eq_true]

/-- C4: validating a map type emits the key check first and then recurses
into key and value; the key check emits nothing exactly when the key is a
primitive whose name is in `ValidMapKeyTypes` (string or one of the eight
integer widths), and everything it can emit is an `InvalidMapKeyError` —
so bool, float, json, date/time or non-primitive keys are always
rejected and string/integer keys always accepted. -/
theorem mapKey_legality (registry : TypeRegistry) (keyType valueType : Ty)
    (file : String) (line column : Nat) :
    (validateType registry (.map keyType valueType) file line column
       = mapKeyCheck keyType file line column
           ++ validateType registry keyType file line column
           ++ validateType registry valueType file line column)
    ∧ (mapKeyCheck keyType file line column = []
        ↔ ∃ n, keyType = Ty.primitive n ∧ n ∈ ValidMapKeyTypes)
    ∧ (∀ e ∈ mapKeyCheck keyType file line column, e.type = InvalidMapKeyError) := by
  refine ⟨rfl, ?_, fun e he => mem_mapKeyCheck_type he⟩
  cases keyType with
  | primitive n =>
      by_cases h : IsValidMapKeyType n = true
      · unfold IsValidMapKeyType at h
        simp [mapKeyCheck, IsValidMapKeyType, h, contains_iff_mem.mp h]
      · unfold IsValidMapKeyType at h
        have hn : n ∉ ValidMapKeyTypes := fun hm => h (contains_iff_mem.mpr hm)
        simp [mapKeyCheck, IsValidMapKeyType, h, hn]
  | named nm => simp [mapKeyCheck]
  | array t => simp [mapKeyCheck]
  | map a b => simp [mapKeyCheck]
  | optional t => simp [mapKeyCheck]

/-- C5: validating `??T` — an optional whose element is itself an
optional — always produces an `InvalidOptionalError`, whatever `T` is: it
is the first error emitted, and in particular one such error is in the
result. -/
theorem doubleOptional_always_invalid (registry : TypeRegistry) (t : Ty)
    (file : String) (line column : Nat) :
    (validateType registry (.optional (.optional t)) file line column).head?
      = some { type := InvalidOptionalError,
               message := "double-wrapped optional types are not allowed",
               file := file, line := line, column := column,
               suggestion := "use single optional marker ?Type" }
    ∧ ∃ e ∈ validateType registry (.optional (.optional t)) file line column,
        e.type = InvalidOptionalError :=
  ⟨rfl, ⟨_, List.mem_append_left _ (List.mem_singleton_self _), rfl⟩⟩

/-- C6: two same-named top-level declarations in one file yield exactly
one `DuplicateTypeError`, reported at the second occurrence's position
and citing the first occurrence's line in its message; the same two
declarations placed in two different files of the module tree yield zero
duplicate-type errors — duplicate detection is scoped per file. -/
theorem duplicateType_scoped_per_file
    (imps imps1 imps2 : List ImportNode) (d1 d2 : Declaration) (f f1 f2 : String)
    (hname : d1.name = d2.name) :
    ((Validate (Module.mk [(f, { importNodes := imps, declarations := [d1, d2] })] .nil)).errors.filter
        (fun e => e.type == DuplicateTypeError)
      = [{ type := DuplicateTypeError,
           message := "duplicate " ++ (declKindName d2).2 ++ " '" ++ d2.name
             ++ "' (first declared at line " ++ toString d1.pos.line ++ ")",
           file := f, line := d2.pos.line, column := d2.pos.column,
           suggestion := "rename one of the declarations" }])
    ∧ ((Validate (Module.mk [(f1, { importNodes := imps1, declarations := [d1] }),
                             (f2, { importNodes := imps2, declarations := [d2] })] .nil)).errors.filter
        (fun e => e.type == DuplicateTypeError) = []) := by
  constructor
  · rw [Validate_errors]
    simp only [validateErrors, validateModule_single_file, List.filter_append]
    rw [validateProgram_pair_dup _ imps d1 d2 f hname, filter_dupType_cycle_nil]
    simp
  · rw [Validate_errors]
    simp only [validateErrors, validateModule_two_files, List.filter_append]
    rw [validateProgram_single_dup, validateProgram_single_dup, filter_dupType_cycle_nil]
    simp

/-- C6 witness: two structs `User` at lines 2 and 5 of `test.tg` yield
exactly that one duplicate error; the same structs in `a.tg` and `b.tg`
yield none. -/
theorem duplicateType_scoped_per_file_witness :
    ((Validate (Module.mk [("test.tg",
          { importNodes := [], declarations := [userStructA, userStructB] })] .nil)).errors.filter
        (fun e => e.type == DuplicateTypeError)
      = [{ type := DuplicateTypeError,
           message := "duplicate struct 'User' (first declared at line 2)",
           file := "test.tg", line := 5, column := 1,
           suggestion := "rename one of the declarations" }])
    ∧ ((Validate (Module.mk [("a.tg", { importNodes := [], declarations := [userStructA] }),
                             ("b.tg", { importNodes := [], declarations := [userStructB] })] .nil)).errors.filter
        (fun e => e.type == DuplicateTypeError) = []) :=
  duplicateType_scoped_per_file [] [] [] userStructA userStructB "test.tg" "a.tg" "b.tg" rfl

/-- C7: a struct with two same-named fields yields exactly one
`DuplicateFieldError`, and an enum with two same-named variants exactly
one `DuplicateVariantError`; each error sits at the second occurrence's
position and cites the first occurrence's line in its message. -/
theorem duplicateFieldVariant_single_error
    (registry : TypeRegistry) (spos epos : Position) (sname ename : String)
    (f1 f2 : FieldNode) (v1 v2 : EnumVariantNode) (file : String)
    (hf : f1.name = f2.name) (hv : v1.name = v2.name) :
    ((validateStruct registry { pos := spos, name := sname, fields := [f1, f2] } file).filter
        (fun e => e.type == DuplicateFieldError)
      = [{ type := DuplicateFieldError,
           message := "duplicate field '" ++ f2.name ++ "' (first declared at line "
             ++ toString f1.pos.line ++ ")",
           file := file, line := f2.pos.line, column := f2.pos.column,
           suggestion := "rename one of the fields" }])
    ∧ ((validateEnum registry { pos := epos, name := ename, variants := [v1, v2] } file).filter
        (fun e => e.type == DuplicateVariantError)
      = [{ type := DuplicateVariantError,
           message := "duplicate variant '" ++ v2.name ++ "' (first declared at line "
             ++ toString v1.pos.line ++ ")",
           file := file, line := v2.pos.line, column := v2.pos.column,
           suggestion := "rename one of the variants" }]) := by
  have hfb : (f1.name == f2.name) = true := by simp [hf]
  have hvb : (v1.name == v2.name) = true := by simp [hv]
  constructor
  · have hexp : validateStruct registry { pos := spos, name := sname, fields := [f1, f2] } file
      = (if !IsValidPascalCase sname then
          [{ type := NamingConventionError,
             message := "struct name '" ++ sname ++ "' should follow PascalCase convention",
             file := file, line := spos.line, column := spos.column,
             suggestion := "use '" ++ SuggestPascalCase sname ++ "'" }]
         else [])
        ++ ((if !IsValidSnakeCase f1.name then
              [{ type := NamingConventionError,
                 message := "field name '" ++ f1.name ++ "' should follow snake_case convention",
                 file := file, line := f1.pos.line, column := f1.pos.column,
                 suggestion := "use '" ++ SuggestSnakeCase f1.name ++ "'" }]
             else [])
          ++ validateType registry f1.type file f1.pos.line f1.pos.column
          ++ ((if !IsValidSnakeCase f2.name then
                [{ type := NamingConventionError,
                   message := "field name '" ++ f2.name ++ "' should follow snake_case convention",
                   file := file, line := f2.pos.line, column := f2.pos.column,
                   suggestion := "use '" ++ SuggestSnakeCase f2.name ++ "'" }]
               else [])
            ++ ([{ type := DuplicateFieldError,
                   message := "duplicate field '" ++ f2.name ++ "' (first declared at line "
                     ++ toString f1.pos.line ++ ")",
                   file := file, line := f2.pos.line, column := f2.pos.column,
                   suggestion := "rename one of the fields" }]
              ++ validateType registry f2.type file f2.pos.line f2.pos.column))) := by
      simp [validateStruct, validateFields, validateField, fieldDupCheck, alookup, hfb]
    rw [hexp]
    simp only [List.filter_append]
    rw [filter_ite_singleton_nil NamingConventionError rfl (by decide),
        filter_ite_singleton_nil NamingConventionError rfl (by decide),
        filter_ite_singleton_nil NamingConventionError rfl (by decide),
        filter_validateType_nil (by decide) (by decide) (by decide) (by decide),
        filter_validateType_nil (by decide) (by decide) (by decide) (by decide),
        filter_type_singleton_self DuplicateFieldError rfl]
    simp
  · have hexp : validateEnum registry { pos := epos, name := ename, variants := [v1, v2] } file
      = (if !IsValidPascalCase ename then
          [{ type := NamingConventionError,
             message := "enum name '" ++ ename ++ "' should follow PascalCase convention",
             file := file, line := epos.line, column := epos.column,
             suggestion := "use '" ++ SuggestPascalCase ename ++ "'" }]
         else [])
        ++ ((if !IsValidSnakeCase v1.name then
              [{ type := NamingConventionError,
                 message := "enum variant '" ++ v1.name ++ "' should follow snake_case convention",
                 file := file, line := v1.pos.line, column := v1.pos.column,
                 suggestion := "use '" ++ SuggestSnakeCase v1.name ++ "'" }]
             else [])
          ++ (match v1.payload with
              | some payload => validateType registry payload file v1.pos.line v1.pos.column
              | none => [])
          ++ ((if !IsValidSnakeCase v2.name then
                [{ type := NamingConventionError,
                   message := "enum variant '" ++ v2.name ++ "' should follow snake_case convention",
                   file := file, line := v2.pos.line, column := v2.pos.column,
                   suggestion := "use '" ++ SuggestSnakeCase v2.name ++ "'" }]
               else [])
            ++ ([{ type := DuplicateVariantError,
                   message := "duplicate variant '" ++ v2.name ++ "' (first declared at line "
                     ++ toString v1.pos.line ++ ")",
                   file := file, line := v2.pos.line, column := v2.pos.column,
                   suggestion := "rename one of the variants" }]
              ++ (match v2.payload with
                  | some payload => validateType registry payload file v2.pos.line v2.pos.column
                  | none => [])))) := by
      simp [validateEnum, validateVariants, validateEnumVariant, variantDupCheck, alookup, hvb]
    rw [hexp]
    simp only [List.filter_append]
    have hpay1 : ((match v1.payload with
        | some payload => validateType registry payload file v1.pos.line v1.pos.column
        | none => []) : List ValidationError).filter (fun e => e.type == DuplicateVariantError)
        = [] := by
      cases v1.payload with
      | none => rfl
      | some payload =>
          exact filter_validateType_nil (by decide) (by decide) (by decide) (by decide)
    have hpay2 : ((match v2.payload with
        | some payload => validateType registry payload file v2.pos.line v2.pos.column
        | none => []) : List ValidationError).filter (fun e => e.type == DuplicateVariantError)
        = [] := by
      cases v2.payload with
      | none => rfl
      | some payload =>
          exact filter_validateType_nil (by decide) (by decide) (by decide) (by decide)
    rw [filter_ite_singleton_nil NamingConventionError rfl (by decide),
        filter_ite_singleton_nil NamingConventionError rfl (by decide),
        filter_ite_singleton_nil NamingConventionError rfl (by decide),
        hpay1, hpay2,
        filter_type_singleton_self DuplicateVariantError rfl]
    simp

/-- C7 witness: a struct `User` with the field `id` at lines 3 and 5
yields exactly that one duplicate-field error, and an enum `Status` with
the variant `active` at lines 9 and 10 exactly that one
duplicate-variant error. -/
theorem duplicateFieldVariant_single_error_witness :
    ((validateStruct NewTypeRegistry
        { pos := ⟨"test.tg", 2, 1⟩, name := "User", fields := [idFieldA, idFieldB] }
        "test.tg").filter (fun e => e.type == DuplicateFieldError)
      = [{ type := DuplicateFieldError,
           message := "duplicate field 'id' (first declared at line 3)",
           file := "test.tg", line := 5, column := 2,
           suggestion := "rename one of the fields" }])
    ∧ ((validateEnum NewTypeRegistry
        { pos := ⟨"test.tg", 8, 1⟩, name := "Status", variants := [activeVariantA, activeVariantB] }
        "test.tg").filter (fun e => e.type == DuplicateVariantError)
      = [{ type := DuplicateVariantError,
           message := "duplicate variant 'active' (first declared at line 9)",
           file := "test.tg", line := 10, column := 2,
           suggestion := "rename one of the variants" }]) :=
  duplicateFieldVariant_single_error NewTypeRegistry ⟨"test.tg", 2, 1⟩ ⟨"test.tg", 8, 1⟩
    "User" "Status" idFieldA idFieldB activeVariantA activeVariantB "test.tg" rfl rfl

/-- C8 counterexample: the claim says `FindType` resolves primitives
first like `TypeExists` and returns a record exactly when `TypeExists`
returns true; on the empty registry `TypeExists "string"` is true
(primitive step) while `FindType "string"` returns nothing — `FindType`
has no primitive step. -/
theorem findType_primitive_refuted :
    NewTypeRegistry.TypeExists "string" "a.tg" = true
    ∧ NewTypeRegistry.FindType "string" "a.tg" = none := by decide

/-- C8 (amended): `FindType` follows the same resolution order as
`TypeExists` minus the primitive step — the exact `currentFile::name` key
first (and when that key is registered it returns exactly that record),
then any registered key ending in `::name`; consequently `TypeExists` is
"the name is a recognized primitive, or `FindType` returns a record". -/
theorem findType_resolution (r : TypeRegistry) (name currentFile : String) :
    (r.TypeExists name currentFile
       = (IsValidPrimitiveType name || (r.FindType name currentFile).isSome))
    ∧ (∀ info, alookup r.types (qualifyName name currentFile) = some info →
         r.FindType name currentFile = some info)
    ∧ ((r.FindType name currentFile).isSome
        = ((alookup r.types (qualifyName name currentFile)).isSome
            || r.types.any (fun kv => hasSuffix kv.1 ("::" ++ name)))) := by
  refine ⟨?_, ?_, ?_⟩
  · unfold TypeRegistry.TypeExists TypeRegistry.FindType
    cases h : alookup r.types (qualifyName name currentFile) with
    | some info => by_cases hp : IsValidPrimitiveType name = true <;> simp [hp, h]
    | none =>
        by_cases hp : IsValidPrimitiveType name = true <;>
          simp [hp, h, findSuffixType_isSome_eq_any]
  · intro info h
    unfold TypeRegistry.FindType
    rw [h]
  · unfold TypeRegistry.FindType
    cases h : alookup r.types (qualifyName name currentFile) with
    | some info => simp [h]
    | none => simp [h, findSuffixType_isSome_eq_any]

/-- C9: the `Validate` method is a pure function of the module tree: the
receiver's prior registry and result play no part (any two validator
states produce the same result), running it again on the state it left
behind returns the same result (idempotence), and the result's errors are
exactly the pass over a registry rebuilt from scratch from the module.
The embedding is purely functional, so the module itself is untouched by
construction. -/
theorem validate_pure_idempotent (v w : Validator) (m : Module) :
    ((v.Validate m).2 = (w.Validate m).2)
    ∧ ((((v.Validate m).1).Validate m).2 = (v.Validate m).2)
    ∧ ((v.Validate m).2 = Validate m)
    ∧ ((v.Validate m).2.errors = validateErrors (buildTypeRegistry m) m) := by
  refine ⟨rfl, rfl, rfl, ?_⟩
  exact Validate_errors m

/-- C10: every `ValidationResult` built by the validator keeps
`Valid == (len(Errors) == 0)`: `NewValidationResult` establishes it
(empty list, `Valid` true), `AddError` — the only mutation — re-establishes
it unconditionally (it appends, so the list is non-empty, and sets
`Valid` false), and under the invariant `HasErrors()` equals not-`Valid`. -/
theorem validationResult_invariant (r : ValidationResult)
    (h : r.valid = decide (r.errors.length = 0)) :
    (NewValidationResult.valid = decide (NewValidationResult.errors.length = 0))
    ∧ (∀ (errorType : ValidationErrorType) (message file : String) (line column : Nat)
        (suggestion : String),
        (r.AddError errorType message file line column suggestion).valid
          = decide ((r.AddError errorType message file line column suggestion).errors.length = 0))
    ∧ (r.HasErrors = !r.valid) := by
  refine ⟨by decide, ?_, ?_⟩
  · intro errorType message file line column suggestion
    simp [ValidationResult.AddError]
  · rw [h]
    unfold ValidationResult.HasErrors
    cases r.errors <;> simp

/-- C10 witness: the invariant facts at the freshly constructed
`NewValidationResult`, whose own invariant hypothesis holds by
computation. -/
theorem validationResult_invariant_witness :
    (NewValidationResult.valid = decide (NewValidationResult.errors.length = 0))
    ∧ (∀ (errorType : ValidationErrorType) (message file : String) (line column : Nat)
        (suggestion : String),
        (NewValidationResult.AddError errorType message file line column suggestion).valid
          = decide ((NewValidationResult.AddError errorType message file line column
              suggestion).errors.length = 0))
    ∧ (NewValidationResult.HasErrors = !NewValidationResult.valid) :=
  validationResult_invariant NewValidationResult (by decide)

end TypeGen
